import Mathlib

/-!
# Verification of the vidyut_walla energy-dashboard core

Shallow embedding of the repository's vanilla-JS core: the synthetic data
generator (`DataManager.simulateRealTimeData`), numeric rounding
(`DataManager.roundNumericValues` via `formatNumber`), the history buffer
(`DataManager.addHistoricalDataPoint`), threshold evaluation
(`DataManager.checkThresholds`), the pub/sub store (`StateManager`) and the
mock authentication service (`AuthService`).

JS numbers are modelled as rationals (`ℚ`); `Math.random()` draws are made
explicit inputs; `num.toFixed(1)` followed by `parseFloat` is modelled as
rounding to one decimal with ties toward `+∞` (ECMA-262 `toFixed` picks the
larger candidate on a tie).
-/

namespace Vidyut

/-! ## Configuration (src/react-app/config.js, `CONFIG`) -/

namespace CONFIG

/-- `CONFIG.UPDATE_INTERVAL`, milliseconds. -/
def UPDATE_INTERVAL : ℕ := 5000

namespace CAMPUS_INFO

def solar_capacity : ℚ := 500
def wind_capacity : ℚ := 100
def peak_demand : ℚ := 450

end CAMPUS_INFO

namespace THRESHOLDS

def battery_low : ℚ := 20
def battery_high : ℚ := 90
def load_high : ℚ := 400

end THRESHOLDS

namespace SIMULATION

def solar_variation : ℚ := 10
def wind_variation : ℚ := 3
def load_variation : ℚ := 8
def battery_variation : ℚ := 1/2
def temperature_variation : ℚ := 1/2
def wind_speed_variation : ℚ := 3/10
def irradiance_variation : ℚ := 20

end SIMULATION

end CONFIG

/-! ## Utilities (src/unnamed/part_000, utils.js) -/

/-- `clamp(value, min, max) = Math.max(min, Math.min(max, value))`. -/
def clamp (value lo hi : ℚ) : ℚ := max lo (min hi value)

/-- `parseFloat(formatNumber(x, 1))`, i.e. `parseFloat(x.toFixed(1))`:
round to one decimal place. ECMA-262 `toFixed` picks the integer `n`
minimising `|n / 10 - x|` and the larger `n` on a tie, i.e. half-up. -/
def round1 (x : ℚ) : ℚ := ((10 * x + 1/2).floor : ℚ) / 10

/-! ## Data model: the current-status snapshot

Field set taken from the object literals consumed and produced by
`DataManager.simulateRealTimeData` and rendered by the UI controller. -/

structure Weather where
  temperature : ℚ
  wind_speed : ℚ
  irradiance : ℚ
  cloud_cover : ℚ
  deriving DecidableEq, Repr

structure Status where
  solar_generation : ℚ
  wind_generation : ℚ
  total_generation : ℚ
  campus_load : ℚ
  battery_soc : ℚ
  battery_power : ℚ
  grid_power : ℚ
  timestamp : String
  weather : Weather
  deriving DecidableEq, Repr

/-- One `Math.random()` draw (a value in `[0,1)`) per perturbed field, in
the order `simulateRealTimeData` consumes them. -/
structure Rands where
  solar : ℚ
  wind : ℚ
  load : ℚ
  battery : ℚ
  temperature : ℚ
  wind_speed : ℚ
  irradiance : ℚ
  deriving DecidableEq, Repr

/-- `DataManager.roundNumericValues` restricted to `Weather`: every field is
a number, so every field is rounded. -/
def roundWeather (w : Weather) : Weather :=
  { temperature := round1 w.temperature
    wind_speed := round1 w.wind_speed
    irradiance := round1 w.irradiance
    cloud_cover := round1 w.cloud_cover }

/-- `DataManager.roundNumericValues(obj, 1)`: rounds every numeric field of
the snapshot with `parseFloat(formatNumber(·, 1))` and recurses into the
nested `weather` object; the `timestamp` string is left untouched. -/
def roundNumericValues (s : Status) : Status :=
  { solar_generation := round1 s.solar_generation
    wind_generation := round1 s.wind_generation
    total_generation := round1 s.total_generation
    campus_load := round1 s.campus_load
    battery_soc := round1 s.battery_soc
    battery_power := round1 s.battery_power
    grid_power := round1 s.grid_power
    timestamp := s.timestamp
    weather := roundWeather s.weather }

/-- The `updated` object of `DataManager.simulateRealTimeData` just before
the final `roundNumericValues` call: each base field gets a delta
`(Math.random() - 0.5) * variation` and is clamped to its bounds; `weather`
is rebuilt with `cloud_cover` copied; `total_generation` and `grid_power`
are recomputed (`grid_power` subtracting `status.battery_power`, the
previous—and unperturbed—battery power); `battery_power` is carried over by
the `{ ...status }` spread; `timestamp` is set to the current time `now`. -/
def simulateUpdated (status : Status) (r : Rands) (now : String) : Status :=
  let solar' := clamp
    (status.solar_generation + (r.solar - 1/2) * CONFIG.SIMULATION.solar_variation)
    0 CONFIG.CAMPUS_INFO.solar_capacity
  let wind' := clamp
    (status.wind_generation + (r.wind - 1/2) * CONFIG.SIMULATION.wind_variation)
    0 CONFIG.CAMPUS_INFO.wind_capacity
  let load' := clamp
    (status.campus_load + (r.load - 1/2) * CONFIG.SIMULATION.load_variation)
    200 CONFIG.CAMPUS_INFO.peak_demand
  let soc' := clamp
    (status.battery_soc + (r.battery - 1/2) * CONFIG.SIMULATION.battery_variation)
    CONFIG.THRESHOLDS.battery_low 100
  let weather' : Weather :=
    { temperature := clamp
        (status.weather.temperature + (r.temperature - 1/2) * CONFIG.SIMULATION.temperature_variation)
        25 40
      wind_speed := clamp
        (status.weather.wind_speed + (r.wind_speed - 1/2) * CONFIG.SIMULATION.wind_speed_variation)
        0 15
      irradiance := clamp
        (status.weather.irradiance + (r.irradiance - 1/2) * CONFIG.SIMULATION.irradiance_variation)
        0 1000
      cloud_cover := status.weather.cloud_cover }
  { solar_generation := solar'
    wind_generation := wind'
    total_generation := solar' + wind'
    campus_load := load'
    battery_soc := soc'
    battery_power := status.battery_power
    grid_power := load' - (solar' + wind') - status.battery_power
    timestamp := now
    weather := weather' }

/-- `DataManager.simulateRealTimeData(status)`: build `updated` and return
`this.roundNumericValues(updated)`. -/
def simulateRealTimeData (status : Status) (r : Rands) (now : String) : Status :=
  roundNumericValues (simulateUpdated status r now)

/-! ## History buffer (`DataManager.addHistoricalDataPoint`) -/

/-- The projection pushed onto `historicalData`. -/
structure HistoryPoint where
  time : String
  solar : ℚ
  wind : ℚ
  load : ℚ
  battery : ℚ
  deriving DecidableEq, Repr

/-- `maxPoints = Math.floor((24 * 60 * 60) / (CONFIG.UPDATE_INTERVAL / 1000))`:
retention window (24 h) divided by the tick interval (5 s). -/
def maxPoints : ℕ := (24 * 60 * 60) / (CONFIG.UPDATE_INTERVAL / 1000)

/-- The history point `addHistoricalDataPoint` builds from a snapshot and
the formatted current time. -/
def historyPointOf (timeString : String) (status : Status) : HistoryPoint :=
  { time := timeString
    solar := status.solar_generation
    wind := status.wind_generation
    load := status.campus_load
    battery := status.battery_soc }

/-- `DataManager.addHistoricalDataPoint(status)` on a history list of
capacity `cap`: `historical.push(newPoint)`, then
`if (historical.length > maxPoints) historical.shift()` — one `shift`
(drop of the oldest, front element) per append. The source fixes
`cap = maxPoints`; the capacity is a parameter here so the configured
derivation and the spec's capacity-3 scenario instantiate the same code. -/
def addHistoricalDataPoint (cap : ℕ) (historical : List HistoryPoint)
    (timeString : String) (status : Status) : List HistoryPoint :=
  let pushed := historical ++ [historyPointOf timeString status]
  if cap < pushed.length then pushed.tail else pushed

/-- The published history after a sequence of appends starting from the
empty initial `historicalData`. -/
def historyAfter (cap : ℕ) (points : List (String × Status)) : List HistoryPoint :=
  points.foldl (fun h p => addHistoricalDataPoint cap h p.1 p.2) []

/-! ## Threshold evaluation (`DataManager.checkThresholds`) -/

structure Alert where
  type : String
  message : String
  timestamp : String
  deriving DecidableEq, Repr

/-- Message of the battery rule, with `CONFIG.THRESHOLDS.battery_low = 20`
interpolated. -/
def batteryAlertMessage : String := "Battery SOC below 20% - consider charging"

/-- Message of the load rule, with `CONFIG.THRESHOLDS.load_high = 400`
interpolated. -/
def loadAlertMessage : String := "Campus load exceeding 400 kW - high demand detected"

/-- `DataManager.checkThresholds(status)`: pushes one warning alert when
`battery_soc < THRESHOLDS.battery_low`, then one when
`campus_load > THRESHOLDS.load_high`; the impure `new Date().toISOString()`
timestamp is passed in as `now`. -/
def checkThresholds (now : String) (status : Status) : List Alert :=
  (if status.battery_soc < CONFIG.THRESHOLDS.battery_low then
    [{ type := "warning", message := batteryAlertMessage, timestamp := now }]
  else []) ++
  (if CONFIG.THRESHOLDS.load_high < status.campus_load then
    [{ type := "warning", message := loadAlertMessage, timestamp := now }]
  else [])

/-! ## State manager (src/unnamed/part_000, stateManager.js)

Values are an arbitrary type `α`; `state` is the JS object (absent key =
`undefined` = `none`); callbacks are opaque identifiers (`ℕ`), and their
behaviour when invoked is an environment `throws : ℕ → Bool` saying which
callbacks raise an exception. -/

structure StateManager (α : Type) where
  state : String → Option α
  listeners : String → List ℕ

/-- `StateManager.get(key)`: `this.state[key]`, no side effects. -/
def StateManager.get (m : StateManager α) (key : String) : Option α :=
  m.state key

/-- `listeners[key].forEach(callback => callback(value))` under JS exception
semantics: each callback is invoked in order with `value`; if one raises,
the exception propagates immediately — the remaining callbacks are not
invoked. Returns the performed invocations (callback id, argument) in order
and whether an exception escaped. -/
def runCallbacks (throws : ℕ → Bool) (cbs : List ℕ) (value : α) :
    List (ℕ × α) × Bool :=
  match cbs with
  | [] => ([], false)
  | c :: rest =>
    if throws c then ([(c, value)], true)
    else
      let (inv, exc) := runCallbacks throws rest value
      ((c, value) :: inv, exc)

/-- `StateManager.notify(key, value)`: `if (this.listeners[key])` iterate
them with `forEach` (an absent listener list behaves as the empty list). -/
def StateManager.notify (throws : ℕ → Bool) (m : StateManager α)
    (key : String) (value : α) : List (ℕ × α) × Bool :=
  runCallbacks throws (m.listeners key) value

/-- `StateManager.set(key, value)`: `this.state[key] = value` (this happens
before `notify`, so the store is updated even if a callback raises), then
`this.notify(key, value)`. Returns the new manager, the callback invocations
performed, and whether an exception escaped out of `set`. -/
def StateManager.set (throws : ℕ → Bool) (m : StateManager α)
    (key : String) (value : α) : StateManager α × List (ℕ × α) × Bool :=
  let m' : StateManager α :=
    { state := fun k => if k = key then some value else m.state k
      listeners := m.listeners }
  (m', StateManager.notify throws m key value)

/-- `StateManager.subscribe(key, callback)`: initialise `listeners[key]` to
`[]` when absent (the model's total function already yields `[]`), then
`push(callback)`. -/
def StateManager.subscribe (m : StateManager α) (key : String) (callback : ℕ) :
    StateManager α :=
  { state := m.state
    listeners := fun k => if k = key then m.listeners k ++ [callback] else m.listeners k }

/-- The unsubscribe closure returned by `subscribe`:
`this.listeners[key] = this.listeners[key].filter(l => l !== callback)` —
removes every occurrence of exactly that callback from that key's list. -/
def StateManager.unsubscribe (m : StateManager α) (key : String) (callback : ℕ) :
    StateManager α :=
  { state := m.state
    listeners := fun k =>
      if k = key then (m.listeners k).filter (fun l => l ≠ callback) else m.listeners k }

/-! ## Mock authentication (src/react-app/authService.js) -/

structure User where
  name : String
  username : String
  deriving DecidableEq, Repr

/-- The persisted/observable state `login` touches: the
`sessionStorage('authUser')` entry and the store's `isAuthenticated` /
`user` entries. -/
structure AuthState where
  sessionUser : Option User
  isAuthenticated : Bool
  user : Option User
  deriving DecidableEq, Repr

/-- `StateManager.loginUser(user)`: `set('isAuthenticated', true)` and
`set('user', user)`. -/
def loginUser (s : AuthState) (u : User) : AuthState :=
  { s with isAuthenticated := true, user := some u }

/-- `StateManager.logoutUser()`: `set('isAuthenticated', false)` and
`set('user', null)`. -/
def logoutUser (s : AuthState) : AuthState :=
  { s with isAuthenticated := false, user := none }

/-- The rejection message of `AuthService.login`. -/
def invalidCredentialsMessage : String := "Invalid credentials. Try admin/password."

/-- `AuthService.login(username, password)`: resolves with the admin user —
after persisting it to `sessionStorage` and calling
`stateManager.loginUser` — exactly when `username === 'admin' &&
password === 'password'`; otherwise rejects with an `Error` and touches no
state. The 500 ms `setTimeout` only delays the promise. -/
def login (username password : String) (s : AuthState) :
    Except String User × AuthState :=
  if username = "admin" ∧ password = "password" then
    let user : User := { name := "Admin User", username := "admin" }
    (Except.ok user, loginUser { s with sessionUser := some user } user)
  else
    (Except.error invalidCredentialsMessage, s)

/-- `AuthService.logout()`: remove the persisted session user and call
`stateManager.logoutUser`. -/
def logout (s : AuthState) : AuthState :=
  logoutUser { s with sessionUser := none }

/-! ## Helper lemmas -/

theorem round1_def (x : ℚ) : round1 x = ((⌊10 * x + 1/2⌋ : ℤ) : ℚ) / 10 := by
  rw [round1, Rat.floor_def', ← Rat.floor_def]

/-- Evaluation rule for `round1` at a concrete input. -/
theorem round1_eq_of (x : ℚ) (n : ℤ) (h1 : (n : ℚ) ≤ 10 * x + 1/2)
    (h2 : 10 * x + 1/2 < n + 1) : round1 x = (n : ℚ) / 10 := by
  rw [round1_def, Int.floor_eq_iff.mpr ⟨h1, by exact_mod_cast h2⟩]

theorem round1_intCast (n : ℤ) : round1 ((n : ℤ) : ℚ) = (n : ℚ) := by
  have h : round1 ((n : ℤ) : ℚ) = ((10 * n : ℤ) : ℚ) / 10 := by
    apply round1_eq_of
    · push_cast; linarith
    · push_cast; linarith
  rw [h]; push_cast; ring

theorem round1_monotone (x y : ℚ) (h : x ≤ y) : round1 x ≤ round1 y := by
  rw [round1_def, round1_def]
  have hf : (⌊10 * x + 1/2⌋ : ℤ) ≤ ⌊10 * y + 1/2⌋ :=
    Int.floor_le_floor (by linarith)
  have : ((⌊10 * x + 1/2⌋ : ℤ) : ℚ) ≤ ((⌊10 * y + 1/2⌋ : ℤ) : ℚ) := by
    exact_mod_cast hf
  linarith

/-- The rounding error of `round1` is at most one twentieth. -/
theorem abs_round1_sub_le (x : ℚ) : |round1 x - x| ≤ 1/20 := by
  rw [round1_def, abs_le]
  have h1 : ((⌊10 * x + 1/2⌋ : ℤ) : ℚ) ≤ 10 * x + 1/2 := Int.floor_le _
  have h2 : 10 * x + 1/2 < ((⌊10 * x + 1/2⌋ : ℤ) : ℚ) + 1 := Int.lt_floor_add_one _
  constructor <;> [linarith; linarith]

theorem le_clamp (value lo hi : ℚ) : lo ≤ clamp value lo hi :=
  le_max_left _ _

theorem clamp_le (value lo hi : ℚ) (h : lo ≤ hi) : clamp value lo hi ≤ hi :=
  max_le h (min_le_left _ _)

/-- `clamp` leaves a value inside the bounds unchanged. -/
theorem clamp_eq_of (value lo hi : ℚ) (h1 : lo ≤ value) (h2 : value ≤ hi) :
    clamp value lo hi = value := by
  rw [clamp, min_eq_right h2, max_eq_right h1]

/-- A rounded clamped value stays within bounds whose one-decimal rounding
is themselves (all the configured bounds are integers). -/
theorem round1_clamp_mem (value lo hi : ℚ) (h : lo ≤ hi)
    (hlo : round1 lo = lo) (hhi : round1 hi = hi) :
    lo ≤ round1 (clamp value lo hi) ∧ round1 (clamp value lo hi) ≤ hi := by
  constructor
  · calc lo = round1 lo := hlo.symm
      _ ≤ round1 (clamp value lo hi) :=
        round1_monotone lo (clamp value lo hi) (le_clamp value lo hi)
  · calc round1 (clamp value lo hi) ≤ round1 hi :=
        round1_monotone (clamp value lo hi) hi (clamp_le value lo hi h)
      _ = hi := hhi

/-- Additivity of rounding fails only up to the three individual rounding
errors. -/
theorem round1_add_err (a b : ℚ) :
    |round1 (a + b) - (round1 a + round1 b)| ≤ 3/20 := by
  have e1 := abs_round1_sub_le (a + b)
  have e2 := abs_round1_sub_le a
  have e3 := abs_round1_sub_le b
  rw [abs_le] at e1 e2 e3 ⊢
  constructor <;> [linarith [e1.1, e1.2, e2.1, e2.2, e3.1, e3.2];
    linarith [e1.1, e1.2, e2.1, e2.2, e3.1, e3.2]]

/-- The four rounding errors in the grid-power identity. -/
theorem round1_sub_sub_err (a b c : ℚ) :
    |round1 (a - b - c) - (round1 a - round1 b - round1 c)| ≤ 1/5 := by
  have e0 := abs_round1_sub_le (a - b - c)
  have e1 := abs_round1_sub_le a
  have e2 := abs_round1_sub_le b
  have e3 := abs_round1_sub_le c
  rw [abs_le] at e0 e1 e2 e3 ⊢
  constructor <;> [linarith [e0.1, e0.2, e1.1, e1.2, e2.1, e2.2, e3.1, e3.2];
    linarith [e0.1, e0.2, e1.1, e1.2, e2.1, e2.2, e3.1, e3.2]]

/-! ## Concrete inputs used to separate the pre- and post-rounding
invariants -/

/-- A valid previous snapshot: every bounded field inside its configured
bounds, derived fields consistent. -/
def cexStatus : Status :=
  { solar_generation := 100
    wind_generation := 50
    total_generation := 150
    campus_load := 300
    battery_soc := 50
    battery_power := 126/5
    grid_power := 624/5
    timestamp := "t0"
    weather := { temperature := 30, wind_speed := 5, irradiance := 500, cloud_cover := 40 } }

/-- Random draws (each in `[0,1)`) giving deltas `+0.24` to solar, wind and
load and `0` elsewhere. -/
def cexRands : Rands :=
  { solar := 131/250
    wind := 29/50
    load := 53/100
    battery := 1/2
    temperature := 1/2
    wind_speed := 1/2
    irradiance := 1/2 }

/-- Full evaluation of the generator at the concrete input: the perturbed
fields are `solar = 100.24`, `wind = 50.24`, `load = 300.24`, hence
`total = 150.48` and `grid = 124.56` before rounding; rounding each leaf
gives `100.2`, `50.2`, `300.2`, `150.5` and `124.6`. -/
theorem cex_eval : simulateRealTimeData cexStatus cexRands "t1" =
    { solar_generation := 501/5
      wind_generation := 251/5
      total_generation := 301/2
      campus_load := 1501/5
      battery_soc := 50
      battery_power := 126/5
      grid_power := 623/5
      timestamp := "t1"
      weather := { temperature := 30, wind_speed := 5, irradiance := 500, cloud_cover := 40 } } := by
  have hu : simulateUpdated cexStatus cexRands "t1" =
      { solar_generation := 2506/25
        wind_generation := 1256/25
        total_generation := 3762/25
        campus_load := 7506/25
        battery_soc := 50
        battery_power := 126/5
        grid_power := 3114/25
        timestamp := "t1"
        weather := { temperature := 30, wind_speed := 5, irradiance := 500, cloud_cover := 40 } } := by
    simp only [simulateUpdated, cexStatus, cexRands,
      CONFIG.SIMULATION.solar_variation, CONFIG.SIMULATION.wind_variation,
      CONFIG.SIMULATION.load_variation, CONFIG.SIMULATION.battery_variation,
      CONFIG.SIMULATION.temperature_variation, CONFIG.SIMULATION.wind_speed_variation,
      CONFIG.SIMULATION.irradiance_variation,
      CONFIG.CAMPUS_INFO.solar_capacity, CONFIG.CAMPUS_INFO.wind_capacity,
      CONFIG.CAMPUS_INFO.peak_demand, CONFIG.THRESHOLDS.battery_low,
      Status.mk.injEq, Weather.mk.injEq]
    norm_num [clamp, max_def, min_def]
  rw [simulateRealTimeData, hu]
  simp only [roundNumericValues, roundWeather, Status.mk.injEq, Weather.mk.injEq]
  refine ⟨?_, ?_, ?_, ?_, ?_, ?_, ?_, trivial, ?_, ?_, ?_, ?_⟩
  · rw [round1_eq_of (2506/25 : ℚ) 1002 (by norm_num) (by norm_num)]; norm_num
  · rw [round1_eq_of (1256/25 : ℚ) 502 (by norm_num) (by norm_num)]; norm_num
  · rw [round1_eq_of (3762/25 : ℚ) 1505 (by norm_num) (by norm_num)]; norm_num
  · rw [round1_eq_of (7506/25 : ℚ) 3002 (by norm_num) (by norm_num)]; norm_num
  · rw [round1_eq_of (50 : ℚ) 500 (by norm_num) (by norm_num)]; norm_num
  · rw [round1_eq_of (126/5 : ℚ) 252 (by norm_num) (by norm_num)]; norm_num
  · rw [round1_eq_of (3114/25 : ℚ) 1246 (by norm_num) (by norm_num)]; norm_num
  · rw [round1_eq_of (30 : ℚ) 300 (by norm_num) (by norm_num)]; norm_num
  · rw [round1_eq_of (5 : ℚ) 50 (by norm_num) (by norm_num)]; norm_num
  · rw [round1_eq_of (500 : ℚ) 5000 (by norm_num) (by norm_num)]; norm_num
  · rw [round1_eq_of (40 : ℚ) 400 (by norm_num) (by norm_num)]; norm_num

/-- One append is: push, then drop the single oldest entry exactly when the
capacity is exceeded. -/
theorem addHistorical_step (cap : ℕ) (h : List HistoryPoint) (t : String) (s : Status)
    (hle : h.length ≤ cap) :
    addHistoricalDataPoint cap h t s
      = (h ++ [historyPointOf t s]).drop ((h.length + 1) - cap) := by
  rw [addHistoricalDataPoint]
  by_cases hc : cap < (h ++ [historyPointOf t s]).length
  · rw [if_pos hc, ← List.drop_one]
    congr 1
    simp only [List.length_append, List.length_cons, List.length_nil] at hc ⊢
    omega
  · rw [if_neg hc]
    simp only [List.length_append, List.length_cons, List.length_nil] at hc
    rw [Nat.sub_eq_zero_of_le (by omega), List.drop_zero]

/-- Folding appends over any start list within capacity keeps the newest
entries: the result is the concatenation with the oldest overflow dropped. -/
theorem historyAfter_go (cap : ℕ) (points : List (String × Status)) :
    ∀ (h : List HistoryPoint), h.length ≤ cap →
      List.foldl (fun acc q => addHistoricalDataPoint cap acc q.1 q.2) h points
        = (h ++ points.map fun q => historyPointOf q.1 q.2).drop
            ((h.length + points.length) - cap) := by
  induction points with
  | nil =>
    intro h hle
    simp [Nat.sub_eq_zero_of_le hle]
  | cons p ps ih =>
    intro h hle
    rw [List.foldl_cons,
      addHistorical_step cap h p.1 p.2 hle]
    have hlen : ((h ++ [historyPointOf p.1 p.2]).drop ((h.length + 1) - cap)).length ≤ cap := by
      simp only [List.length_drop, List.length_append, List.length_cons, List.length_nil]
      omega
    rw [ih _ hlen,
      ← List.drop_append_of_le_length (by simp),
      List.drop_drop]
    simp only [List.length_drop, List.length_append, List.length_cons, List.length_nil,
      List.length_map, List.append_assoc, List.singleton_append, List.map_cons]
    congr 1
    omega

/-- When no callback raises, `forEach` invokes every callback in order with
the value and no exception escapes. -/
theorem runCallbacks_nothrow {α : Type} (throws : ℕ → Bool) (cbs : List ℕ) (value : α)
    (h : ∀ c ∈ cbs, throws c = false) :
    runCallbacks throws cbs value = (cbs.map fun c => (c, value), false) := by
  induction cbs with
  | nil => rfl
  | cons c rest ih =>
    rw [runCallbacks, if_neg (by simp [h c (List.mem_cons_self c rest)]),
      ih fun b hb => h b (List.mem_cons_of_mem c hb)]
    rfl

/-- Every invocation performed comes from the iterated callback list and
carries the notified value. -/
theorem runCallbacks_mem {α : Type} (throws : ℕ → Bool) (cbs : List ℕ) (value : α)
    (c : ℕ) (x : α) (h : (c, x) ∈ (runCallbacks throws cbs value).1) :
    c ∈ cbs ∧ x = value := by
  induction cbs with
  | nil => cases h
  | cons b rest ih =>
    rw [runCallbacks] at h
    by_cases hb : throws b
    · rw [if_pos hb] at h
      rcases List.mem_singleton.mp h with heq
      exact ⟨List.mem_cons.mpr (Or.inl (Prod.ext_iff.mp heq).1), (Prod.ext_iff.mp heq).2⟩
    · rw [if_neg hb] at h
      rcases List.mem_cons.mp h with heq | hmem
      · exact ⟨List.mem_cons.mpr (Or.inl (Prod.ext_iff.mp heq).1), (Prod.ext_iff.mp heq).2⟩
      · exact ⟨List.mem_cons_of_mem b (ih hmem).1, (ih hmem).2⟩

/-- When the first raising callback is `c`, everything before it runs, `c`
itself is invoked and raises, and everything after it is skipped. -/
theorem runCallbacks_throws {α : Type} (throws : ℕ → Bool) (value : α)
    (pre : List ℕ) (c : ℕ) (post : List ℕ)
    (hpre : ∀ b ∈ pre, throws b = false) (hc : throws c = true) :
    runCallbacks throws (pre ++ c :: post) value
      = (pre.map (fun b => (b, value)) ++ [(c, value)], true) := by
  induction pre with
  | nil => simp [runCallbacks, hc]
  | cons b rest ih =>
    rw [List.cons_append, runCallbacks,
      if_neg (by simp [hpre b (List.mem_cons_self b rest)]),
      ih fun b' hb' => hpre b' (List.mem_cons_of_mem b hb')]
    rfl

/-- A status used only to instantiate the capacity-3 scenario. -/
def scnStatus (n : ℚ) : Status :=
  { solar_generation := n
    wind_generation := n
    total_generation := 2 * n
    campus_load := 300
    battery_soc := 50
    battery_power := 0
    grid_power := 300 - 2 * n
    timestamp := "t"
    weather := { temperature := 30, wind_speed := 5, irradiance := 500, cloud_cover := 40 } }

/-! ## Claims -/

/-- C1 (counterexample): at the concrete valid snapshot `cexStatus` and
draws `cexRands` the published snapshot has `total_generation = 150.5` but
`solar_generation + wind_generation = 100.2 + 50.2 = 150.4`: the invariant
does not survive the final per-leaf rounding. -/
theorem C1_counterexample :
    (simulateRealTimeData cexStatus cexRands "t1").total_generation ≠
      (simulateRealTimeData cexStatus cexRands "t1").solar_generation +
        (simulateRealTimeData cexStatus cexRands "t1").wind_generation := by
  rw [cex_eval]
  norm_num

/-- C1 (amended): the generator's `total_generation` equals
`solar_generation + wind_generation` exactly on the freshly perturbed
snapshot, before the final rounding; after every numeric leaf is rounded to
one decimal place the identity holds only up to the three rounding errors,
i.e. within `0.15`. -/
theorem C1_total_generation_sum (s : Status) (r : Rands) (now : String) :
    (simulateUpdated s r now).total_generation
        = (simulateUpdated s r now).solar_generation
          + (simulateUpdated s r now).wind_generation
    ∧ |(simulateRealTimeData s r now).total_generation
        - ((simulateRealTimeData s r now).solar_generation
          + (simulateRealTimeData s r now).wind_generation)| ≤ 3/20 := by
  constructor
  · rfl
  · exact round1_add_err (simulateUpdated s r now).solar_generation
      (simulateUpdated s r now).wind_generation

/-- C2: every bounded field of the published snapshot lies within its
configured bounds — `solar_generation ∈ [0, solar_capacity]`,
`wind_generation ∈ [0, wind_capacity]`, `campus_load ∈ [200, peak_demand]`,
`battery_soc ∈ [battery_low, 100]`, `temperature ∈ [25, 40]`,
`wind_speed ∈ [0, 15]`, `irradiance ∈ [0, 1000]` — for any previous
snapshot and any random draws, and still after the rounding step (every
configured bound is an integer, hence fixed by the rounding). -/
theorem C2_bounded_fields (s : Status) (r : Rands) (now : String) :
    (0 ≤ (simulateRealTimeData s r now).solar_generation
      ∧ (simulateRealTimeData s r now).solar_generation ≤ CONFIG.CAMPUS_INFO.solar_capacity)
    ∧ (0 ≤ (simulateRealTimeData s r now).wind_generation
      ∧ (simulateRealTimeData s r now).wind_generation ≤ CONFIG.CAMPUS_INFO.wind_capacity)
    ∧ (200 ≤ (simulateRealTimeData s r now).campus_load
      ∧ (simulateRealTimeData s r now).campus_load ≤ CONFIG.CAMPUS_INFO.peak_demand)
    ∧ (CONFIG.THRESHOLDS.battery_low ≤ (simulateRealTimeData s r now).battery_soc
      ∧ (simulateRealTimeData s r now).battery_soc ≤ 100)
    ∧ (25 ≤ (simulateRealTimeData s r now).weather.temperature
      ∧ (simulateRealTimeData s r now).weather.temperature ≤ 40)
    ∧ (0 ≤ (simulateRealTimeData s r now).weather.wind_speed
      ∧ (simulateRealTimeData s r now).weather.wind_speed ≤ 15)
    ∧ (0 ≤ (simulateRealTimeData s r now).weather.irradiance
      ∧ (simulateRealTimeData s r now).weather.irradiance ≤ 1000) := by
  refine ⟨?_, ?_, ?_, ?_, ?_, ?_, ?_⟩
  · exact round1_clamp_mem _ 0 CONFIG.CAMPUS_INFO.solar_capacity
      (by norm_num [CONFIG.CAMPUS_INFO.solar_capacity])
      (by simpa using round1_intCast 0)
      (by simpa [CONFIG.CAMPUS_INFO.solar_capacity] using round1_intCast 500)
  · exact round1_clamp_mem _ 0 CONFIG.CAMPUS_INFO.wind_capacity
      (by norm_num [CONFIG.CAMPUS_INFO.wind_capacity])
      (by simpa using round1_intCast 0)
      (by simpa [CONFIG.CAMPUS_INFO.wind_capacity] using round1_intCast 100)
  · exact round1_clamp_mem _ 200 CONFIG.CAMPUS_INFO.peak_demand
      (by norm_num [CONFIG.CAMPUS_INFO.peak_demand])
      (by simpa using round1_intCast 200)
      (by simpa [CONFIG.CAMPUS_INFO.peak_demand] using round1_intCast 450)
  · exact round1_clamp_mem _ CONFIG.THRESHOLDS.battery_low 100
      (by norm_num [CONFIG.THRESHOLDS.battery_low])
      (by simpa [CONFIG.THRESHOLDS.battery_low] using round1_intCast 20)
      (by simpa using round1_intCast 100)
  · exact round1_clamp_mem _ 25 40 (by norm_num)
      (by simpa using round1_intCast 25)
      (by simpa using round1_intCast 40)
  · exact round1_clamp_mem _ 0 15 (by norm_num)
      (by simpa using round1_intCast 0)
      (by simpa using round1_intCast 15)
  · exact round1_clamp_mem _ 0 1000 (by norm_num)
      (by simpa using round1_intCast 0)
      (by simpa using round1_intCast 1000)

/-- C3 (counterexample): at `cexStatus`/`cexRands` the published snapshot
has `grid_power = 124.6` while `campus_load - total_generation -
battery_power = 300.2 - 150.5 - 25.2 = 124.5`: the identity over the output
snapshot's fields does not survive the per-leaf rounding. -/
theorem C3_counterexample :
    (simulateRealTimeData cexStatus cexRands "t1").grid_power ≠
      (simulateRealTimeData cexStatus cexRands "t1").campus_load -
        (simulateRealTimeData cexStatus cexRands "t1").total_generation -
        (simulateRealTimeData cexStatus cexRands "t1").battery_power := by
  rw [cex_eval]
  norm_num

/-- C3 (amended): before the final rounding the identity
`grid_power = campus_load - total_generation - battery_power` holds exactly
over the freshly computed snapshot — equivalently over the output fields,
since the output's `battery_power` is the previous tick's value carried
over unperturbed — with the derived fields recomputed from the freshly
perturbed base fields; after every numeric leaf is rounded to one decimal
place the identity holds only up to the four rounding errors, i.e. within
`0.2`. -/
theorem C3_grid_power_identity (s : Status) (r : Rands) (now : String) :
    (simulateUpdated s r now).grid_power
        = (simulateUpdated s r now).campus_load
          - (simulateUpdated s r now).total_generation
          - (simulateUpdated s r now).battery_power
    ∧ (simulateUpdated s r now).battery_power = s.battery_power
    ∧ |(simulateRealTimeData s r now).grid_power
        - ((simulateRealTimeData s r now).campus_load
          - (simulateRealTimeData s r now).total_generation
          - (simulateRealTimeData s r now).battery_power)| ≤ 1/5 := by
  refine ⟨rfl, rfl, ?_⟩
  exact round1_sub_sub_err (simulateUpdated s r now).campus_load
    (simulateUpdated s r now).total_generation s.battery_power

/-- C4: starting from the empty history, after any sequence of appends the
published history has length at most the configured capacity (`maxPoints`,
the 24 h retention window divided by the 5 s tick interval: `17280`), is in
insertion order with the oldest surviving entry the `(count - capacity)`-th
inserted one, and with capacity 3 appending A, B, C, D yields `[B, C, D]`. -/
theorem C4_history_ring_buffer (cap : ℕ) (points : List (String × Status)) :
    historyAfter cap points
        = (points.map fun q => historyPointOf q.1 q.2).drop (points.length - cap)
    ∧ (historyAfter cap points).length ≤ cap
    ∧ maxPoints = 17280
    ∧ historyAfter 3
        [("tA", scnStatus 1), ("tB", scnStatus 2), ("tC", scnStatus 3), ("tD", scnStatus 4)]
        = [historyPointOf "tB" (scnStatus 2), historyPointOf "tC" (scnStatus 3),
           historyPointOf "tD" (scnStatus 4)] := by
  have hmain : historyAfter cap points
      = (points.map fun q => historyPointOf q.1 q.2).drop (points.length - cap) := by
    rw [historyAfter, historyAfter_go cap points [] (by simp)]
    simp
  refine ⟨hmain, ?_, rfl, ?_⟩
  · rw [hmain]
    simp only [List.length_drop, List.length_map]
    omega
  · rfl

/-- C10: the generator applies no random perturbation to `battery_power`
(the `{ ...status }` spread carries it over) or to `weather.cloud_cover`
(copied verbatim into the rebuilt weather object): the output values are
the previous ones up to the uniform one-decimal rounding and are
independent of the random draws; `temperature`, `wind_speed` and
`irradiance` are exactly the weather fields built from a random delta. -/
theorem C10_frame_battery_cloud (s : Status) (r rOther : Rands) (now nowOther : String) :
    (simulateRealTimeData s r now).battery_power = round1 s.battery_power
    ∧ (simulateRealTimeData s r now).weather.cloud_cover = round1 s.weather.cloud_cover
    ∧ (simulateRealTimeData s r now).battery_power
        = (simulateRealTimeData s rOther nowOther).battery_power
    ∧ (simulateRealTimeData s r now).weather.cloud_cover
        = (simulateRealTimeData s rOther nowOther).weather.cloud_cover
    ∧ (simulateRealTimeData s r now).weather.temperature
        = round1 (clamp (s.weather.temperature
            + (r.temperature - 1/2) * CONFIG.SIMULATION.temperature_variation) 25 40)
    ∧ (simulateRealTimeData s r now).weather.wind_speed
        = round1 (clamp (s.weather.wind_speed
            + (r.wind_speed - 1/2) * CONFIG.SIMULATION.wind_speed_variation) 0 15)
    ∧ (simulateRealTimeData s r now).weather.irradiance
        = round1 (clamp (s.weather.irradiance
            + (r.irradiance - 1/2) * CONFIG.SIMULATION.irradiance_variation) 0 1000) :=
  ⟨rfl, rfl, rfl, rfl, rfl, rfl, rfl⟩


/-! ## Concrete store instances for witnesses and the notification
counterexample -/

/-- A store with two subscribers on `currentStatus` and one on `alerts`. -/
def witnessSM : StateManager ℕ :=
  { state := fun _ => none
    listeners := fun k => if k = "currentStatus" then [1, 2] else [3] }

/-- A callback environment in which callback `1` raises. -/
def throwsCex : ℕ → Bool := fun c => c == 1

/-- A callback environment in which no callback raises. -/
def throwsNone : ℕ → Bool := fun _ => false

/-- C5: `set(key, value)` replaces the stored value — an immediate `get`
returns it — and synchronously invokes all callbacks currently subscribed
to that key, in subscription order, passing the new value; every callback
invoked by the call is one subscribed to that key, so no callback
subscribed only to a different key is invoked. (Stated for callbacks that
do not raise; a raising callback is claim C7's concern.) -/
theorem C5_set_get_notify (α : Type) (throws : ℕ → Bool) (m : StateManager α)
    (key : String) (value : α)
    (hok : ∀ c ∈ m.listeners key, throws c = false) :
    (StateManager.set throws m key value).1.get key = some value
    ∧ (StateManager.set throws m key value).2.1
        = (m.listeners key).map (fun c => (c, value))
    ∧ (StateManager.set throws m key value).2.2 = false
    ∧ ∀ (c : ℕ) (x : α), (c, x) ∈ (StateManager.set throws m key value).2.1 →
        c ∈ m.listeners key ∧ x = value := by
  refine ⟨by simp [StateManager.set, StateManager.get], ?_, ?_, ?_⟩
  · show (StateManager.notify throws m key value).1 = _
    rw [StateManager.notify, runCallbacks_nothrow throws (m.listeners key) value hok]
  · show (StateManager.notify throws m key value).2 = _
    rw [StateManager.notify, runCallbacks_nothrow throws (m.listeners key) value hok]
  · intro c x hmem
    exact runCallbacks_mem throws (m.listeners key) value c x hmem

/-- C5 witness: on the concrete store `witnessSM`, setting `currentStatus`
to `7` stores `7`, invokes exactly callbacks `1` then `2` with `7`, and
raises nothing. -/
theorem C5_witness :
    (StateManager.set throwsNone witnessSM "currentStatus" 7).1.get "currentStatus" = some 7
    ∧ (StateManager.set throwsNone witnessSM "currentStatus" 7).2.1 = [(1, 7), (2, 7)]
    ∧ (StateManager.set throwsNone witnessSM "currentStatus" 7).2.2 = false := by
  have h := C5_set_get_notify ℕ throwsNone witnessSM "currentStatus" 7
    (fun c _ => rfl)
  exact ⟨h.1, by rw [h.2.1]; rfl, h.2.2.1⟩

/-- C6: the unsubscribe capability for `(key, callback)` removes exactly
that callback from that key's subscriber list (a different callback is
subscribed afterwards exactly when it was before, other keys untouched),
invoking it a second time is a no-op, and after unsubscribing a `set` on
that key never invokes the removed callback. -/
theorem C6_unsubscribe (α : Type) (m : StateManager α) (key : String) (callback : ℕ) :
    callback ∉ (StateManager.unsubscribe m key callback).listeners key
    ∧ (∀ c : ℕ, c ∈ (StateManager.unsubscribe m key callback).listeners key
        ↔ c ∈ m.listeners key ∧ c ≠ callback)
    ∧ (∀ k : String, k ≠ key →
        (StateManager.unsubscribe m key callback).listeners k = m.listeners k)
    ∧ StateManager.unsubscribe (StateManager.unsubscribe m key callback) key callback
        = StateManager.unsubscribe m key callback
    ∧ ∀ (throws : ℕ → Bool) (value x : α),
        (callback, x) ∉ (StateManager.set throws (StateManager.unsubscribe m key callback) key value).2.1 := by
  have hmem : ∀ c : ℕ, c ∈ (StateManager.unsubscribe m key callback).listeners key
      ↔ c ∈ m.listeners key ∧ c ≠ callback := by
    intro c
    simp [StateManager.unsubscribe, List.mem_filter]
  refine ⟨fun h => ((hmem callback).mp h).2 rfl, hmem, ?_, ?_, ?_⟩
  · intro k hk
    simp [StateManager.unsubscribe, hk]
  · simp only [StateManager.unsubscribe, StateManager.mk.injEq, true_and, eq_self_iff_true]
    funext k
    by_cases hk : k = key
    · simp [hk, List.filter_filter]
    · simp [hk]
  · intro throws value x hmem2
    have h2 := runCallbacks_mem throws
      ((StateManager.unsubscribe m key callback).listeners key) value callback x hmem2
    exact ((hmem callback).mp h2.1).2 rfl

/-- C6 witness: on `witnessSM`, after unsubscribing callback `1` from
`currentStatus` it is no longer subscribed there, callback `2` still is,
re-unsubscribing changes nothing, and a subsequent `set` invokes only
callback `2`. -/
theorem C6_witness :
    1 ∉ (StateManager.unsubscribe witnessSM "currentStatus" 1).listeners "currentStatus"
    ∧ (2 ∈ (StateManager.unsubscribe witnessSM "currentStatus" 1).listeners "currentStatus"
        ↔ 2 ∈ witnessSM.listeners "currentStatus" ∧ (2 : ℕ) ≠ 1)
    ∧ StateManager.unsubscribe (StateManager.unsubscribe witnessSM "currentStatus" 1) "currentStatus" 1
        = StateManager.unsubscribe witnessSM "currentStatus" 1
    ∧ (1, 7) ∉ (StateManager.set throwsNone
        (StateManager.unsubscribe witnessSM "currentStatus" 1) "currentStatus" 7).2.1 := by
  have h := C6_unsubscribe ℕ witnessSM "currentStatus" 1
  exact ⟨h.1, h.2.1 2, h.2.2.2.1, h.2.2.2.2 throwsNone 7 7⟩


/-- C7 (counterexample): on `witnessSM` (callbacks `1` then `2` subscribed
to `currentStatus`) with callback `1` raising, the `set` notification never
invokes the later callback `2` and the exception escapes the `set` call:
`notify` iterates with a bare `forEach`, no per-callback isolation. -/
theorem C7_counterexample :
    (2, 7) ∉ (StateManager.set throwsCex witnessSM "currentStatus" 7).2.1
    ∧ (StateManager.set throwsCex witnessSM "currentStatus" 7).2.2 = true := by
  constructor
  · intro hmem
    have h3 := runCallbacks_throws (α := ℕ) throwsCex 7 [] 1 [2]
      (fun b hb => absurd hb (List.not_mem_nil b)) rfl
    have h4 : (2, 7) ∈ (runCallbacks throwsCex ([] ++ 1 :: [2]) 7).1 := hmem
    rw [h3] at h4
    simp at h4
  · rfl

/-- C7 (amended): a callback that raises during the notification of
`set(key, value)` aborts the `forEach`: the callbacks before it have run
with the new value, the raising callback itself was invoked, no later
callback is invoked, and the exception propagates out of `set` (the stored
value was already replaced before `notify`, so the write survives). -/
theorem C7_exception_aborts_notification (α : Type) (throws : ℕ → Bool)
    (m : StateManager α) (key : String) (value : α)
    (pre : List ℕ) (c : ℕ) (post : List ℕ)
    (hl : m.listeners key = pre ++ c :: post)
    (hpre : ∀ b ∈ pre, throws b = false) (hc : throws c = true) :
    (StateManager.set throws m key value).2.1
        = pre.map (fun b => (b, value)) ++ [(c, value)]
    ∧ (StateManager.set throws m key value).2.2 = true
    ∧ (∀ b : ℕ, b ∉ pre → b ≠ c →
        ∀ x : α, (b, x) ∉ (StateManager.set throws m key value).2.1)
    ∧ (StateManager.set throws m key value).1.get key = some value := by
  have hrun : StateManager.notify throws m key value
      = (pre.map (fun b => (b, value)) ++ [(c, value)], true) := by
    rw [StateManager.notify, hl, runCallbacks_throws throws value pre c post hpre hc]
  have h1 : (StateManager.set throws m key value).2.1
      = pre.map (fun b => (b, value)) ++ [(c, value)] := by
    show (StateManager.notify throws m key value).1 = _
    rw [hrun]
  refine ⟨h1, ?_, ?_, by simp [StateManager.set, StateManager.get]⟩
  · show (StateManager.notify throws m key value).2 = _
    rw [hrun]
  · intro b hbpre hbc x hmem
    rw [h1] at hmem
    rcases List.mem_append.mp hmem with hp | hs
    · rcases List.mem_map.mp hp with ⟨b', hb', heq⟩
      have e : b' = b := (Prod.ext_iff.mp heq).1
      exact hbpre (e ▸ hb')
    · have e : b = c := (Prod.ext_iff.mp (List.mem_singleton.mp hs)).1
      exact hbc e

/-- C7 witness for the amended claim: on `witnessSM` with callback `1`
raising, `set` invokes exactly callback `1`, the exception escapes, and
the value is nonetheless stored. -/
theorem C7_witness :
    (StateManager.set throwsCex witnessSM "currentStatus" 7).2.1 = [(1, 7)]
    ∧ (StateManager.set throwsCex witnessSM "currentStatus" 7).2.2 = true
    ∧ (StateManager.set throwsCex witnessSM "currentStatus" 7).1.get "currentStatus" = some 7 := by
  have h := C7_exception_aborts_notification ℕ throwsCex witnessSM "currentStatus" 7
    [] 1 [2] rfl (fun b hb => absurd hb (List.not_mem_nil b)) rfl
  exact ⟨by rw [h.1]; rfl, h.2.1, h.2.2.2⟩


/-- The initial auth state: no persisted session, not authenticated. -/
def authState0 : AuthState :=
  { sessionUser := none, isAuthenticated := false, user := none }

/-- C8: `login(username, password)` resolves with a user object exactly
when the pair is `admin`/`password`; for every other pair it rejects with
the user-facing message and performs no partial login — the persisted
session user and the store's `isAuthenticated`/`user` entries are all
unmodified. -/
theorem C8_login_all_or_nothing (username password : String) (s : AuthState) :
    ((∃ u : User, (login username password s).1 = Except.ok u)
        ↔ (username = "admin" ∧ password = "password"))
    ∧ (¬ (username = "admin" ∧ password = "password") →
        (login username password s).1 = Except.error invalidCredentialsMessage
        ∧ (login username password s).2 = s) := by
  by_cases h : username = "admin" ∧ password = "password"
  · rw [login, if_pos h]
    exact ⟨⟨fun _ => h, fun _ => ⟨_, rfl⟩⟩, fun hn => absurd h hn⟩
  · rw [login, if_neg h]
    refine ⟨⟨fun ⟨u, hu⟩ => ?_, fun hh => absurd hh h⟩, fun _ => ⟨rfl, rfl⟩⟩
    exact Except.noConfusion hu

/-- C8 witness: with the right password `login` resolves; with a wrong
password it rejects with the fixed message and leaves `authState0`
untouched. -/
theorem C8_witness :
    (∃ u : User, (login "admin" "password" authState0).1 = Except.ok u)
    ∧ (login "admin" "wrong" authState0).1 = Except.error invalidCredentialsMessage
    ∧ (login "admin" "wrong" authState0).2 = authState0 := by
  refine ⟨(C8_login_all_or_nothing "admin" "password" authState0).1.mpr ⟨rfl, rfl⟩, ?_, ?_⟩
  · exact ((C8_login_all_or_nothing "admin" "wrong" authState0).2 (by simp)).1
  · exact ((C8_login_all_or_nothing "admin" "wrong" authState0).2 (by simp)).2

/-- C9: threshold evaluation is a pure function of the snapshot (given the
timestamp) emitting exactly one alert per violated rule: exactly one
battery alert when `battery_soc < battery_low = 20` and none otherwise,
exactly one load alert when `campus_load > load_high = 400` and none
otherwise, nothing else (every alert is one of the two warnings stamped
with `now`); in particular `battery_soc = 18.5` yields exactly one
battery-low alert and `battery_soc = 25` yields zero alerts for that
rule. -/
theorem C9_checkThresholds_alerts (now : String) (s : Status) :
    (checkThresholds now s).countP (fun a => a.message == batteryAlertMessage)
        = (if s.battery_soc < CONFIG.THRESHOLDS.battery_low then 1 else 0)
    ∧ (checkThresholds now s).countP (fun a => a.message == loadAlertMessage)
        = (if CONFIG.THRESHOLDS.load_high < s.campus_load then 1 else 0)
    ∧ (checkThresholds now s).length
        = (if s.battery_soc < CONFIG.THRESHOLDS.battery_low then 1 else 0)
          + (if CONFIG.THRESHOLDS.load_high < s.campus_load then 1 else 0)
    ∧ (∀ a ∈ checkThresholds now s, a.type = "warning" ∧ a.timestamp = now
        ∧ (a.message = batteryAlertMessage ∨ a.message = loadAlertMessage))
    ∧ (s.battery_soc = 37/2 →
        (checkThresholds now s).countP (fun a => a.message == batteryAlertMessage) = 1)
    ∧ (s.battery_soc = 25 →
        (checkThresholds now s).countP (fun a => a.message == batteryAlertMessage) = 0) := by
  have hmsg : (batteryAlertMessage == loadAlertMessage) = false := by
    rw [batteryAlertMessage, loadAlertMessage]; rfl
  have hmsg2 : (loadAlertMessage == batteryAlertMessage) = false := by
    rw [batteryAlertMessage, loadAlertMessage]; rfl
  rw [checkThresholds]
  split_ifs with h1 h2 h2
  · refine ⟨by simp [hmsg2], by simp [hmsg], by simp, ?_, fun _ => by simp [hmsg2], ?_⟩
    · intro a ha
      rcases List.mem_append.mp ha with hb | hl2 <;>
        simp_all [List.mem_singleton]
    · intro hsoc
      rw [hsoc, CONFIG.THRESHOLDS.battery_low] at h1
      norm_num at h1
  · refine ⟨by simp, by simp [hmsg2, hmsg], by simp, ?_, fun _ => by simp, ?_⟩
    · intro a ha
      rcases List.mem_append.mp ha with hb | hl2 <;>
        simp_all [List.mem_singleton]
    · intro hsoc
      rw [hsoc, CONFIG.THRESHOLDS.battery_low] at h1
      norm_num at h1
  · refine ⟨by simp [hmsg2], by simp [hmsg], by simp, ?_, ?_, fun _ => by simp [hmsg2, hmsg]⟩
    · intro a ha
      rcases List.mem_append.mp ha with hb | hl2 <;>
        simp_all [List.mem_singleton]
    · intro hsoc
      rw [hsoc, CONFIG.THRESHOLDS.battery_low] at h1
      norm_num at h1
  · refine ⟨by simp, by simp, by simp, ?_, ?_, fun _ => by simp⟩
    · intro a ha
      cases ha
    · intro hsoc
      rw [hsoc, CONFIG.THRESHOLDS.battery_low] at h1
      norm_num at h1

end Vidyut
